import Mathlib

/-
Shallow embedding of the server-fetch library (src/src/index.ts).

The library validates a URL (scheme, port, public-suffix, private-network
classification of the resolved address) and only then issues the HTTP
request with a timeout-driven abort signal.

External collaborators are modelled as explicit function parameters:
  - the WHATWG URL parser becomes a parameter returning an optional URLRec;
  - the public suffix list oracle publicSuffixList.isValid becomes a
    Bool-valued parameter;
  - dns.lookup becomes a parameter returning an optional LookupResult
    (none models NXDOMAIN, timeout and other lookup failures, which the
    source catches in isPrivateHostname);
  - the transport fetch becomes a TransportBehavior describing when the
    request would settle and with what result.

IP addresses are modelled by their numeric value (Nat) rather than by
text: IPText is the shape of the resolved address text (a v4 dotted quad
carrying a 32-bit value, a v6 literal carrying a 128-bit value, or
malformed text that no address class can parse), and the ip-address
library operations of the source are translated value-wise:
correctForm is the identity on values, the is4/to4 folding of an
IPv4-mapped IPv6 address (high 96 bits equal to 0xffff) extracts the low
32 bits, and isInSubnet compares the leading mask-many bits, i.e. the
quotients by 2 ^ (width - mask).
-/

inductive IPAddr where
  | v4 (a : Nat)
  | v6 (a : Nat)
deriving DecidableEq

inductive IPText where
  | v4 (a : Nat)
  | v6 (a : Nat)
  | malformed (s : String)
deriving DecidableEq

def IPAddr.toText : IPAddr → IPText
  | .v4 a => .v4 a
  | .v6 a => .v6 a

/-- Value of the dotted quad a.b.c.d. -/
def mkIPv4 (a b c d : Nat) : Nat :=
  ((a * 256 + b) * 256 + c) * 256 + d

def DEFAULT_TIMEOUT : Nat := 10000

def ALLOWED_PORTS : List Nat := [80, 443]

def ALLOWED_SCHEMES : List String := ["http", "https"]

/-- The literal cloud metadata address 169.254.169.254, as a value.
The source compares the normalized dotted text against the literal string;
correctForm is injective on values, so string equality is value equality. -/
def AWS_IMDS_ENDPOINT : Nat := mkIPv4 169 254 169 254

/-- normalizeIP of the source: parse the resolved address text, folding an
IPv4-mapped IPv6 address to its embedded IPv4 form; parse failure (caught
and rethrown in the source) is none. A textual v4 value out of the 32-bit
range or a v6 value out of the 128-bit range models text the address
classes reject. -/
def normalizeIP : IPText → Option IPAddr
  | .v4 a => if a < 2 ^ 32 then some (.v4 a) else none
  | .v6 a =>
      if a < 2 ^ 128 then
        if a / 2 ^ 32 == 0xffff then some (.v4 (a % 2 ^ 32)) else some (.v6 a)
      else none
  | .malformed _ => none

/-- isInSubnet of the ip-address library: the leading mask-many bits of the
address equal those of the base, i.e. the quotients by 2 ^ (width - mask)
agree. width is 32 for IPv4 and 128 for IPv6. -/
def inSubnet (width a base mask : Nat) : Bool :=
  a / 2 ^ (width - mask) == base / 2 ^ (width - mask)

/-- PRIVATE_IPV4_RANGES of the source, as (base value, mask length). -/
def PRIVATE_IPV4_RANGES : List (Nat × Nat) :=
  [ (mkIPv4 0 0 0 0, 8)
  , (mkIPv4 10 0 0 0, 8)
  , (mkIPv4 100 64 0 0, 10)
  , (mkIPv4 127 0 0 0, 8)
  , (mkIPv4 169 254 0 0, 16)
  , (mkIPv4 172 16 0 0, 12)
  , (mkIPv4 192 168 0 0, 16)
  , (mkIPv4 198 18 0 0, 15)
  , (mkIPv4 240 0 0 0, 4) ]

/-- PRIVATE_IPV6_RANGES of the source: ::1/128, ::/128, fc00::/7, fe80::/10. -/
def PRIVATE_IPV6_RANGES : List (Nat × Nat) :=
  [ (1, 128)
  , (0, 128)
  , (0xfc00 * 2 ^ 112, 7)
  , (0xfe80 * 2 ^ 112, 10) ]

def inAnyRange4 (a : Nat) : Bool :=
  PRIVATE_IPV4_RANGES.any (fun r => inSubnet 32 a r.1 r.2)

def inAnyRange6 (a : Nat) : Bool :=
  PRIVATE_IPV6_RANGES.any (fun r => inSubnet 128 a r.1 r.2)

/-- The private classification applied to a normalized address: in the
IPv4 branch the source first compares against the metadata literal and
then tests the IPv4 ranges; the IPv6 branch tests the IPv6 ranges. -/
def isPrivateIP : IPAddr → Bool
  | .v4 a => a == AWS_IMDS_ENDPOINT || inAnyRange4 a
  | .v6 a => inAnyRange6 a

/-- Result of dns.lookup: the address text and the address family (4 or 6). -/
structure LookupResult where
  address : IPText
  family : Nat
deriving DecidableEq

/-- Error taxonomy, one constructor per throw site of the source.
invalidHostname carries the hostname and is produced both by the public
suffix check of validateUrl and by the catch-all of isPrivateHostname
(lookup failure, normalizeIP failure, and the secondary Address4/Address6
constructor failures), which all throw the same invalid-hostname error. -/
inductive FetchError where
  | invalidURL
  | invalidScheme (protocol : String)
  | invalidPort (port : Nat)
  | invalidHostname (hostname : String)
  | privateNetworkDenied
deriving DecidableEq

/-- isPrivateHostname of the source. Inside one try block it looks the
hostname up, normalizes the address text, and then branches on the
LOOKUP family (not on the shape of the normalized value): the family-4
branch rebuilds an Address4 from the normalized text and classifies it,
the other branch rebuilds an Address6. Rebuilding fails when the
normalized text has the other shape — in particular when normalizeIP
folded a mapped IPv6 address to dotted IPv4 text while the family is 6 —
and every failure inside the try block is caught and rethrown as the one
invalid-hostname error. -/
def isPrivateHostname (dns : String → Option LookupResult) (hostname : String) :
    Except FetchError Bool :=
  match dns hostname with
  | none => .error (.invalidHostname hostname)
  | some ip =>
    match normalizeIP ip.address with
    | none => .error (.invalidHostname hostname)
    | some normalizedIP =>
      if ip.family == 4 then
        match normalizedIP with
        | .v4 a => .ok (a == AWS_IMDS_ENDPOINT || inAnyRange4 a)
        | .v6 _ => .error (.invalidHostname hostname)
      else
        match normalizedIP with
        | .v6 a => .ok (inAnyRange6 a)
        | .v4 _ => .error (.invalidHostname hostname)

/-- Parsed URL as the WHATWG parser yields it: protocol keeps the trailing
colon and is lowercase, port is none when absent or elided as the scheme
default, rest stands for the opaque path, query and fragment. -/
structure URLRec where
  protocol : String
  hostname : String
  port : Option Nat
  rest : String
deriving DecidableEq

/-- Effective port of validateUrl: the explicit port when present, else
443 when the protocol is https and 80 otherwise. -/
def effectivePort (url : URLRec) : Nat :=
  match url.port with
  | some p => p
  | none => if url.protocol = "https:" then 443 else 80

/-- validateUrl of the source: parse, scheme check, port check, public
suffix check, private-network check, in that order, each failure
short-circuiting with its own error; on success the parsed URL is
returned as is. -/
def validateUrl (parse : String → Option URLRec) (psl : String → Bool)
    (dns : String → Option LookupResult) (urlString : String) :
    Except FetchError URLRec :=
  match parse urlString with
  | none => .error .invalidURL
  | some url =>
    if !(ALLOWED_SCHEMES.contains (url.protocol.dropRight 1)) then
      .error (.invalidScheme url.protocol)
    else if !(ALLOWED_PORTS.contains (effectivePort url)) then
      .error (.invalidPort (effectivePort url))
    else if !(psl url.hostname) then
      .error (.invalidHostname url.hostname)
    else
      match isPrivateHostname dns url.hostname with
      | .error e => .error e
      | .ok true => .error .privateNetworkDenied
      | .ok false => .ok url

/-- Abort signal values: a caller-supplied one, or the signal of the
AbortController that serverFetch itself creates. -/
inductive AbortSignal where
  | caller (id : Nat)
  | core
deriving DecidableEq

/-- Options of serverFetch: the timeout, an optional caller signal, and
the remaining pass-through request options (headers, method, body, ...),
opaque to the core. -/
structure RequestOpts where
  timeout : Option Nat
  signal : Option AbortSignal
  passthrough : List (String × String)
deriving DecidableEq

/-- The option record handed to fetch: the spread of the caller options
with the signal field overwritten by the signal of the core controller. -/
def overrideSignal (o : RequestOpts) : RequestOpts :=
  ⟨o.timeout, some AbortSignal.core, o.passthrough⟩

/-- Behavior of the transport collaborator: after how many milliseconds
the request would settle, and with what outcome (a response id, or a
transport failure message). -/
structure TransportBehavior where
  duration : Nat
  result : Except String Nat

inductive SFError where
  | validation (e : FetchError)
  | timeoutAborted
  | transportError (m : String)
deriving DecidableEq

/-- One invocation of the transport. -/
structure FetchCall where
  url : URLRec
  opts : RequestOpts
deriving DecidableEq

/-- Observable effects of one serverFetch call: the transport invocations,
the timer durations armed by setTimeout, and how many clearTimeout ran. -/
structure FetchTrace where
  calls : List FetchCall
  timersStarted : List Nat
  timersCleared : Nat
deriving DecidableEq

def FetchTrace.empty : FetchTrace := ⟨[], [], 0⟩

/-- serverFetch of the source. The input URL is already stringified (the
source calls toString first). On validation failure the error propagates
and nothing else happens. On success an AbortController and a timer of
options.timeout (default 10000 ms) are created, fetch is invoked with the
validated URL and the caller options spread with the core signal, and the
finally block clears the timer on every exit. The timer firing strictly
before the request settles aborts the request, which then fails with the
abort rejection (the timeout error); ties are resolved for the request. -/
def serverFetch (parse : String → Option URLRec) (psl : String → Bool)
    (dns : String → Option LookupResult) (tb : TransportBehavior)
    (urlString : String) (options : RequestOpts) :
    Except SFError Nat × FetchTrace :=
  match validateUrl parse psl dns urlString with
  | .error e => (.error (.validation e), FetchTrace.empty)
  | .ok validatedUrl =>
    let timeout := options.timeout.getD DEFAULT_TIMEOUT
    let call : FetchCall := ⟨validatedUrl, overrideSignal options⟩
    if tb.duration ≤ timeout then
      match tb.result with
      | .ok resp => (.ok resp, ⟨[call], [timeout], 1⟩)
      | .error m => (.error (.transportError m), ⟨[call], [timeout], 1⟩)
    else
      (.error .timeoutAborted, ⟨[call], [timeout], 1⟩)

/-! Helper lemmas shared between claims. -/

/-- Every failure of isPrivateHostname is the invalid-hostname error of the
checked hostname: all throw sites inside the try block are rethrown by the
single catch. -/
theorem isPrivateHostname_error_shape (dns : String → Option LookupResult)
    (h : String) (e : FetchError)
    (he : isPrivateHostname dns h = Except.error e) :
    e = FetchError.invalidHostname h := by
  unfold isPrivateHostname at he
  split at he
  · exact (Except.error.inj he).symm
  · split at he
    · exact (Except.error.inj he).symm
    · split at he
      · split at he
        · exact Except.noConfusion he
        · exact (Except.error.inj he).symm
      · split at he
        · exact Except.noConfusion he
        · exact (Except.error.inj he).symm

/-- An IPv4-mapped value (high 96 bits equal to 0xffff) is bounded between
0xffff * 2 ^ 32 and 2 ^ 48. -/
theorem mapped_bounds (a : Nat) (hm : a / 2 ^ 32 = 0xffff) :
    0xffff * 2 ^ 32 ≤ a ∧ a < 2 ^ 48 := by
  have hdm := Nat.div_add_mod a (2 ^ 32)
  have hml : a % 2 ^ 32 < 2 ^ 32 := Nat.mod_lt _ (by norm_num)
  rw [hm] at hdm
  norm_num at hdm hml ⊢
  omega

/-- No IPv4-mapped value lies in a declared IPv6 range. -/
theorem mapped_not_inAnyRange6 (a : Nat) (hm : a / 2 ^ 32 = 0xffff) :
    inAnyRange6 a = false := by
  obtain ⟨hge, hlt⟩ := mapped_bounds a hm
  have h121 : a / 2 ^ 121 = 0 := Nat.div_eq_of_lt (lt_trans hlt (by norm_num))
  have h118 : a / 2 ^ 118 = 0 := Nat.div_eq_of_lt (lt_trans hlt (by norm_num))
  have hne : a ≠ 1 ∧ a ≠ 0 := by constructor <;> intro hh <;> rw [hh] at hge <;> norm_num at hge
  norm_num at h121 h118
  simp [inAnyRange6, PRIVATE_IPV6_RANGES, inSubnet, h121, h118, hne.1, hne.2]

/-! Claim C9. -/

/-- Claim C9: IP address normalization is idempotent — for every address
text that normalizes successfully, normalizing the textual form of the
result again yields the same value — and an IPv4-mapped IPv6 address
normalizes to its embedded IPv4 form. -/
theorem normalizeIP_idempotent_and_folds :
    (∀ (t : IPText) (x : IPAddr), normalizeIP t = some x →
        normalizeIP x.toText = some x)
  ∧ (∀ v : Nat, v < 2 ^ 32 →
        normalizeIP (IPText.v6 (0xffff * 2 ^ 32 + v)) = some (IPAddr.v4 v)) := by
  constructor
  · intro t x ht
    cases t with
    | malformed s => exact Option.noConfusion ht
    | v4 a =>
      simp only [normalizeIP] at ht
      split at ht
      · rename_i hlt
        injection ht with h1
        subst h1
        simp only [IPAddr.toText, normalizeIP]
        rw [if_pos hlt]
      · exact Option.noConfusion ht
    | v6 a =>
      simp only [normalizeIP] at ht
      split at ht
      · rename_i hlt
        split at ht
        · injection ht with h1
          subst h1
          have hml : a % 2 ^ 32 < 2 ^ 32 := Nat.mod_lt _ (by norm_num)
          simp only [IPAddr.toText, normalizeIP]
          rw [if_pos hml]
        · rename_i hm
          injection ht with h1
          subst h1
          simp only [IPAddr.toText, normalizeIP]
          rw [if_pos hlt, if_neg hm]
      · exact Option.noConfusion ht
  · intro v hv
    have hdiv : (0xffff * 2 ^ 32 + v) / 2 ^ 32 = 0xffff := by
      rw [Nat.add_comm, Nat.add_mul_div_right _ _ (by norm_num : (0:ℕ) < 2 ^ 32),
        Nat.div_eq_of_lt hv, Nat.zero_add]
    have hmod : (0xffff * 2 ^ 32 + v) % 2 ^ 32 = v := by
      rw [Nat.add_comm, Nat.add_mul_mod_self_right]
      exact Nat.mod_eq_of_lt hv
    have hlt : 0xffff * 2 ^ 32 + v < 2 ^ 128 := by
      have : (0xffff : ℕ) * 2 ^ 32 + 2 ^ 32 ≤ 2 ^ 128 := by norm_num
      omega
    simp only [normalizeIP]
    rw [if_pos hlt, if_pos (by rw [beq_iff_eq]; exact hdiv), hmod]

/-- Witness for claim C9 at concrete inputs: normalizing the normalized
form of the mapped address embedding 10.0.0.1. -/
theorem normalizeIP_idempotent_witness :
    normalizeIP (IPAddr.v4 (mkIPv4 10 0 0 1)).toText
      = some (IPAddr.v4 (mkIPv4 10 0 0 1))
  ∧ normalizeIP (IPText.v6 (0xffff * 2 ^ 32 + mkIPv4 10 0 0 1))
      = some (IPAddr.v4 (mkIPv4 10 0 0 1)) :=
  ⟨normalizeIP_idempotent_and_folds.1
      (IPText.v6 (0xffff * 2 ^ 32 + mkIPv4 10 0 0 1)) (IPAddr.v4 (mkIPv4 10 0 0 1))
      (normalizeIP_idempotent_and_folds.2 (mkIPv4 10 0 0 1) (by decide)),
   normalizeIP_idempotent_and_folds.2 (mkIPv4 10 0 0 1) (by decide)⟩

/-! Claim C2. -/

/-- Claim C2 (evidence of the divergence): a hostname resolving, with
family 6, to the IPv4-mapped IPv6 address that embeds 10.0.0.1.
normalizeIP does fold the address to its IPv4 form, and that form is
private by the IPv4 classification; but the family-6 branch of
isPrivateHostname then fails to rebuild an Address6 from the folded
dotted-quad text, the failure is caught, and the check throws the
invalid-hostname error instead of returning the private classification,
so validateUrl propagates that error and never the private-network
rejection the claim expects. -/
theorem mapped_private_rejected_as_invalid_hostname :
    isPrivateHostname
        (fun _ => some ⟨IPText.v6 (0xffff * 2 ^ 32 + mkIPv4 10 0 0 1), 6⟩)
        "internal.example.com"
      = Except.error (FetchError.invalidHostname "internal.example.com")
  ∧ normalizeIP (IPText.v6 (0xffff * 2 ^ 32 + mkIPv4 10 0 0 1))
      = some (IPAddr.v4 (mkIPv4 10 0 0 1))
  ∧ isPrivateIP (IPAddr.v4 (mkIPv4 10 0 0 1)) = true
  ∧ validateUrl (fun _ => some ⟨"http:", "internal.example.com", none, "/"⟩)
        (fun _ => true)
        (fun _ => some ⟨IPText.v6 (0xffff * 2 ^ 32 + mkIPv4 10 0 0 1), 6⟩)
        "http://internal.example.com/"
      = Except.error (FetchError.invalidHostname "internal.example.com") :=
  ⟨rfl, rfl, rfl, rfl⟩

/-! Claim C1. -/

/-- A lookup result lying in a declared private range of its family. -/
def lookupInPrivateRange (res : LookupResult) : Prop :=
  (res.family = 4 ∧ ∃ a, res.address = IPText.v4 a ∧ a < 2 ^ 32 ∧ inAnyRange4 a = true)
  ∨ (res.family = 6 ∧ ∃ a, res.address = IPText.v6 a ∧ a < 2 ^ 128 ∧ inAnyRange6 a = true)

/-- Matching some declared range of the own family of the address. -/
def matchesFamilyRange : IPAddr → Bool
  | .v4 a => inAnyRange4 a
  | .v6 a => inAnyRange6 a

/-- Claim C1: for every URL that reaches the hostname check and whose
hostname resolves to an address inside a declared private range of its
family, validateUrl rejects with the private-network error; and the
private classification holds exactly when the address matches a range of
its family or equals the literal cloud metadata address. -/
theorem validateUrl_private_denied_and_isPrivate_iff :
    (∀ (parse : String → Option URLRec) (psl : String → Bool)
        (dns : String → Option LookupResult) (s : String) (u : URLRec)
        (res : LookupResult),
        parse s = some u →
        ALLOWED_SCHEMES.contains (u.protocol.dropRight 1) = true →
        ALLOWED_PORTS.contains (effectivePort u) = true →
        psl u.hostname = true →
        dns u.hostname = some res →
        lookupInPrivateRange res →
        validateUrl parse psl dns s = Except.error FetchError.privateNetworkDenied)
  ∧ (∀ ip : IPAddr,
        isPrivateIP ip = true ↔
          (matchesFamilyRange ip = true ∨ ip = IPAddr.v4 AWS_IMDS_ENDPOINT)) := by
  constructor
  · intro parse psl dns s u res hp hs hpt hpsl hdns hpriv
    have hpriv2 : isPrivateHostname dns u.hostname = Except.ok true := by
      rcases hpriv with ⟨hf, a, ha, hlt, hr⟩ | ⟨hf, a, ha, hlt, hr⟩
      · norm_num at hlt
        simp [isPrivateHostname, hdns, ha, hf, normalizeIP, hlt, hr]
      · have hnm : ¬ (a / 2 ^ 32 = 0xffff) := by
          intro hm
          rw [mapped_not_inAnyRange6 a hm] at hr
          exact Bool.noConfusion hr
        norm_num at hlt hnm
        simp [isPrivateHostname, hdns, ha, hf, normalizeIP, hlt, hnm, hr]
    have hs2 : u.protocol.dropRight 1 ∈ ALLOWED_SCHEMES := by simpa using hs
    have hpt2 : effectivePort u ∈ ALLOWED_PORTS := by simpa using hpt
    unfold validateUrl
    rw [hp]
    simp [hs2, hpt2, hpsl, hpriv2]
  · intro ip
    cases ip with
    | v4 a =>
      simp only [isPrivateIP, matchesFamilyRange, Bool.or_eq_true, beq_iff_eq,
        IPAddr.v4.injEq]
      tauto
    | v6 a =>
      simp [isPrivateIP, matchesFamilyRange]

/-- Witness for claim C1 at a concrete input: an http URL whose hostname
resolves to 10.0.0.1 with family 4, and the classification of ::1. -/
theorem validateUrl_private_denied_witness :
    validateUrl (fun _ => some ⟨"http:", "private.example.com", none, "/"⟩)
      (fun _ => true)
      (fun _ => some ⟨IPText.v4 (mkIPv4 10 0 0 1), 4⟩)
      "http://private.example.com/"
      = Except.error FetchError.privateNetworkDenied
  ∧ isPrivateIP (IPAddr.v6 1) = true :=
  ⟨validateUrl_private_denied_and_isPrivate_iff.1
      (fun _ => some ⟨"http:", "private.example.com", none, "/"⟩)
      (fun _ => true)
      (fun _ => some ⟨IPText.v4 (mkIPv4 10 0 0 1), 4⟩)
      "http://private.example.com/"
      ⟨"http:", "private.example.com", none, "/"⟩
      ⟨IPText.v4 (mkIPv4 10 0 0 1), 4⟩
      rfl (by decide) (by decide) rfl rfl
      (Or.inl ⟨rfl, mkIPv4 10 0 0 1, rfl, by decide, by decide⟩),
   (validateUrl_private_denied_and_isPrivate_iff.2 (IPAddr.v6 1)).mpr
      (Or.inl (by decide))⟩

/-! Claim C3. -/

/-- Claim C3: validateUrl performs its checks in the fixed order parse,
scheme, port, public suffix, private network, short-circuiting on the
first failure, and each failing check produces its own distinct error; a
URL failing the parse, scheme, port or suffix check is rejected for every
dns oracle, i.e. before and independently of any DNS resolution. -/
theorem validateUrl_check_order
    (parse : String → Option URLRec) (psl : String → Bool) (s : String) :
    (parse s = none →
      ∀ dns, validateUrl parse psl dns s = Except.error FetchError.invalidURL)
  ∧ (∀ u, parse s = some u →
      (ALLOWED_SCHEMES.contains (u.protocol.dropRight 1) = false →
        ∀ dns, validateUrl parse psl dns s
          = Except.error (FetchError.invalidScheme u.protocol))
    ∧ (ALLOWED_SCHEMES.contains (u.protocol.dropRight 1) = true →
        ALLOWED_PORTS.contains (effectivePort u) = false →
        ∀ dns, validateUrl parse psl dns s
          = Except.error (FetchError.invalidPort (effectivePort u)))
    ∧ (ALLOWED_SCHEMES.contains (u.protocol.dropRight 1) = true →
        ALLOWED_PORTS.contains (effectivePort u) = true →
        psl u.hostname = false →
        ∀ dns, validateUrl parse psl dns s
          = Except.error (FetchError.invalidHostname u.hostname))
    ∧ (ALLOWED_SCHEMES.contains (u.protocol.dropRight 1) = true →
        ALLOWED_PORTS.contains (effectivePort u) = true →
        psl u.hostname = true →
        ∀ dns,
          (isPrivateHostname dns u.hostname = Except.ok true →
            validateUrl parse psl dns s
              = Except.error FetchError.privateNetworkDenied)
        ∧ (isPrivateHostname dns u.hostname = Except.ok false →
            validateUrl parse psl dns s = Except.ok u))) := by
  constructor
  · intro hn dns
    simp [validateUrl, hn]
  · intro u hp
    refine ⟨?_, ?_, ?_, ?_⟩
    · intro hs dns
      have hs2 : u.protocol.dropRight 1 ∉ ALLOWED_SCHEMES := by simpa using hs
      simp [validateUrl, hp, hs2]
    · intro hs hpt dns
      have hs2 : u.protocol.dropRight 1 ∈ ALLOWED_SCHEMES := by simpa using hs
      have hpt2 : effectivePort u ∉ ALLOWED_PORTS := by simpa using hpt
      simp [validateUrl, hp, hs2, hpt2]
    · intro hs hpt hpsl dns
      have hs2 : u.protocol.dropRight 1 ∈ ALLOWED_SCHEMES := by simpa using hs
      have hpt2 : effectivePort u ∈ ALLOWED_PORTS := by simpa using hpt
      simp [validateUrl, hp, hs2, hpt2, hpsl]
    · intro hs hpt hpsl dns
      have hs2 : u.protocol.dropRight 1 ∈ ALLOWED_SCHEMES := by simpa using hs
      have hpt2 : effectivePort u ∈ ALLOWED_PORTS := by simpa using hpt
      constructor
      · intro hpriv
        simp [validateUrl, hp, hs2, hpt2, hpsl, hpriv]
      · intro hpriv
        simp [validateUrl, hp, hs2, hpt2, hpsl, hpriv]

/-- Witness for claim C3 at a concrete input: an ftp URL is rejected with
the invalid-scheme error under an arbitrary dns oracle. -/
theorem validateUrl_check_order_witness :
    validateUrl (fun _ => some ⟨"ftp:", "files.example.com", none, "/"⟩)
      (fun _ => true) (fun _ => none) "ftp://files.example.com/"
      = Except.error (FetchError.invalidScheme "ftp:") :=
  ((validateUrl_check_order
      (fun _ => some ⟨"ftp:", "files.example.com", none, "/"⟩)
      (fun _ => true) "ftp://files.example.com/").2
    ⟨"ftp:", "files.example.com", none, "/"⟩ rfl).1 (by decide) (fun _ => none)

/-! Claim C4. -/

/-- Claim C4 (counterexample to the claimed error distinction): a DNS
resolution failure and a malformed resolved address text produce the very
same error value — the invalid-hostname error of the checked hostname —
because one catch block rethrows every failure alike; no separate
resolution error and invalid-address error exist in the code. -/
theorem resolution_and_parse_failures_same_error :
    isPrivateHostname (fun _ => none) "svc.example.com"
      = isPrivateHostname
          (fun _ => some ⟨IPText.malformed "bogus", 4⟩) "svc.example.com"
  ∧ isPrivateHostname (fun _ => none) "svc.example.com"
      = Except.error (FetchError.invalidHostname "svc.example.com") :=
  ⟨rfl, rfl⟩

/-- Claim C4 (amended): validation is fail-closed on resolution and
parsing — for every hostname on which DNS resolution fails or whose
resolved address text is a malformed IP, the hostname check fails with a
hard error (the same invalid-hostname error in both failure modes), it
never returns a classification, and validateUrl never accepts the URL. -/
theorem failed_resolution_never_accepted
    (parse : String → Option URLRec) (psl : String → Bool)
    (dns : String → Option LookupResult) (s : String) (u : URLRec)
    (hp : parse s = some u)
    (hfail : dns u.hostname = none ∨
      ∃ r, dns u.hostname = some r ∧ normalizeIP r.address = none) :
    isPrivateHostname dns u.hostname
        = Except.error (FetchError.invalidHostname u.hostname)
  ∧ ∀ v, validateUrl parse psl dns s ≠ Except.ok v := by
  have h1 : isPrivateHostname dns u.hostname
      = Except.error (FetchError.invalidHostname u.hostname) := by
    rcases hfail with hf | ⟨r, hr, hn⟩
    · simp [isPrivateHostname, hf]
    · simp [isPrivateHostname, hr, hn]
  refine ⟨h1, ?_⟩
  intro v hv
  simp only [validateUrl, hp] at hv
  split at hv
  · exact Except.noConfusion hv
  · split at hv
    · exact Except.noConfusion hv
    · split at hv
      · exact Except.noConfusion hv
      · rw [h1] at hv
        exact Except.noConfusion hv

/-- Witness for claim C4 at a concrete input: a hostname on which DNS
resolution fails; the check errors and the URL is not accepted. -/
theorem failed_resolution_never_accepted_witness :
    isPrivateHostname (fun _ => none) "down.example.com"
        = Except.error (FetchError.invalidHostname "down.example.com")
  ∧ validateUrl (fun _ => some ⟨"http:", "down.example.com", none, "/"⟩)
      (fun _ => true) (fun _ => none) "http://down.example.com/"
      ≠ Except.ok ⟨"http:", "down.example.com", none, "/"⟩ :=
  ⟨(failed_resolution_never_accepted
      (fun _ => some ⟨"http:", "down.example.com", none, "/"⟩)
      (fun _ => true) (fun _ => none) "http://down.example.com/"
      ⟨"http:", "down.example.com", none, "/"⟩ rfl (Or.inl rfl)).1,
   (failed_resolution_never_accepted
      (fun _ => some ⟨"http:", "down.example.com", none, "/"⟩)
      (fun _ => true) (fun _ => none) "http://down.example.com/"
      ⟨"http:", "down.example.com", none, "/"⟩ rfl (Or.inl rfl)).2
      ⟨"http:", "down.example.com", none, "/"⟩⟩

/-! Claim C6. -/

/-- Claim C6: for every parsed URL passing the scheme check, the effective
port is the explicit port when present and otherwise 443 for https and 80
for http; the port allow set is exactly 80 and 443; and validateUrl fails
with an invalid-port error exactly when the effective port is outside the
allow set — in particular an explicit port 80 under https passes the port
check. -/
theorem effectivePort_rule_and_port_check
    (parse : String → Option URLRec) (psl : String → Bool)
    (dns : String → Option LookupResult) (s : String) (u : URLRec)
    (hp : parse s = some u)
    (hs : ALLOWED_SCHEMES.contains (u.protocol.dropRight 1) = true) :
    (∀ p, u.port = some p → effectivePort u = p)
  ∧ (u.port = none →
      effectivePort u = if u.protocol = "https:" then 443 else 80)
  ∧ (∀ p : Nat, ALLOWED_PORTS.contains p = true ↔ (p = 80 ∨ p = 443))
  ∧ ((∃ p, validateUrl parse psl dns s
        = Except.error (FetchError.invalidPort p))
      ↔ ALLOWED_PORTS.contains (effectivePort u) = false) := by
  refine ⟨?_, ?_, ?_, ?_⟩
  · intro p hport
    simp [effectivePort, hport]
  · intro hport
    simp [effectivePort, hport]
  · intro p
    simp [ALLOWED_PORTS]
  · constructor
    · rintro ⟨p, hp2⟩
      cases hc : ALLOWED_PORTS.contains (effectivePort u) with
      | false => rfl
      | true =>
        exfalso
        have hs2 : u.protocol.dropRight 1 ∈ ALLOWED_SCHEMES := by simpa using hs
        have hpt2 : effectivePort u ∈ ALLOWED_PORTS := by simpa using hc
        simp only [validateUrl, hp] at hp2
        rw [if_neg (by simpa using hs2)] at hp2
        rw [if_neg (by simpa using hpt2)] at hp2
        split at hp2
        · exact FetchError.noConfusion (Except.error.inj hp2)
        · split at hp2
          · rename_i e he
            exact FetchError.noConfusion
              ((isPrivateHostname_error_shape dns u.hostname e he).symm.trans
                (Except.error.inj hp2))
          · exact FetchError.noConfusion (Except.error.inj hp2)
          · exact Except.noConfusion hp2
    · intro hc
      refine ⟨effectivePort u, ?_⟩
      have hs2 : u.protocol.dropRight 1 ∈ ALLOWED_SCHEMES := by simpa using hs
      have hpt2 : effectivePort u ∉ ALLOWED_PORTS := by simpa using hc
      simp [validateUrl, hp, hs2, hpt2]

/-- Witness for claim C6 at a concrete input: https with explicit port 80
— the mismatched-but-allowed case — is not rejected by the port check. -/
theorem effectivePort_rule_witness :
    effectivePort ⟨"https:", "site.example.com", some 80, "/"⟩ = 80
  ∧ validateUrl (fun _ => some ⟨"https:", "site.example.com", some 80, "/"⟩)
      (fun _ => true) (fun _ => some ⟨IPText.v4 (mkIPv4 93 184 216 34), 4⟩)
      "https://site.example.com:80/"
      ≠ Except.error (FetchError.invalidPort 80) :=
  ⟨(effectivePort_rule_and_port_check
      (fun _ => some ⟨"https:", "site.example.com", some 80, "/"⟩)
      (fun _ => true) (fun _ => some ⟨IPText.v4 (mkIPv4 93 184 216 34), 4⟩)
      "https://site.example.com:80/"
      ⟨"https:", "site.example.com", some 80, "/"⟩ rfl (by decide)).1 80 rfl,
   fun h => absurd
     ((effectivePort_rule_and_port_check
        (fun _ => some ⟨"https:", "site.example.com", some 80, "/"⟩)
        (fun _ => true) (fun _ => some ⟨IPText.v4 (mkIPv4 93 184 216 34), 4⟩)
        "https://site.example.com:80/"
        ⟨"https:", "site.example.com", some 80, "/"⟩ rfl (by decide)).2.2.2.mp
       ⟨80, h⟩)
     (by decide)⟩

/-! Claims about serverFetch. Shared concrete collaborators for the
witnesses: a URL that validates successfully against a public address. -/

def okURL : URLRec := ⟨"https:", "site.example.com", none, "/"⟩

def okParse : String → Option URLRec := fun _ => some okURL

def okPsl : String → Bool := fun _ => true

def okDns : String → Option LookupResult :=
  fun _ => some ⟨IPText.v4 (mkIPv4 93 184 216 34), 4⟩

/-! Claim C5. -/

/-- Claim C5: on every input on which validation fails, serverFetch
propagates that validation error and the transport is never invoked; the
transport is invoked only when validation fully succeeds. -/
theorem serverFetch_no_call_on_validation_failure
    (parse : String → Option URLRec) (psl : String → Bool)
    (dns : String → Option LookupResult) (tb : TransportBehavior)
    (s : String) (options : RequestOpts) :
    (∀ e, validateUrl parse psl dns s = Except.error e →
        serverFetch parse psl dns tb s options
          = (Except.error (SFError.validation e), FetchTrace.empty))
  ∧ ((serverFetch parse psl dns tb s options).2.calls ≠ [] →
        ∃ u, validateUrl parse psl dns s = Except.ok u) := by
  constructor
  · intro e he
    simp [serverFetch, he]
  · intro hc
    cases hv : validateUrl parse psl dns s with
    | error e =>
      exfalso
      exact hc (by simp [serverFetch, hv, FetchTrace.empty])
    | ok u => exact ⟨u, rfl⟩

/-- Witness for claim C5 at a concrete input: an unparsable URL; the
validation error propagates and the trace is empty, so no transport call
and no timer happened. -/
theorem serverFetch_no_call_witness :
    serverFetch (fun _ => none) (fun _ => true) (fun _ => none)
      ⟨5, Except.ok 0⟩ "not a url" ⟨none, none, []⟩
      = (Except.error (SFError.validation FetchError.invalidURL),
         FetchTrace.empty) :=
  (serverFetch_no_call_on_validation_failure (fun _ => none) (fun _ => true)
      (fun _ => none) ⟨5, Except.ok 0⟩ "not a url" ⟨none, none, []⟩).1
    FetchError.invalidURL rfl

/-! Claim C7. -/

/-- Claim C7: for every successfully validated request serverFetch arms
exactly one cancellation timer of options.timeout milliseconds (10000
when absent); if the timer fires before the request settles the call
fails with the timeout (abort) error; and a clearTimeout runs for every
setTimeout on every exit path, validation failures included. -/
theorem serverFetch_timeout_behavior
    (parse : String → Option URLRec) (psl : String → Bool)
    (dns : String → Option LookupResult) (tb : TransportBehavior)
    (s : String) (options : RequestOpts) (u : URLRec)
    (hv : validateUrl parse psl dns s = Except.ok u) :
    (serverFetch parse psl dns tb s options).2.timersStarted
        = [options.timeout.getD DEFAULT_TIMEOUT]
  ∧ (options.timeout = none → options.timeout.getD DEFAULT_TIMEOUT = 10000)
  ∧ (options.timeout.getD DEFAULT_TIMEOUT < tb.duration →
      (serverFetch parse psl dns tb s options).1
        = Except.error SFError.timeoutAborted)
  ∧ (∀ (parse2 : String → Option URLRec) (psl2 : String → Bool)
        (dns2 : String → Option LookupResult) (tb2 : TransportBehavior)
        (s2 : String) (options2 : RequestOpts),
      (serverFetch parse2 psl2 dns2 tb2 s2 options2).2.timersCleared
        = (serverFetch parse2 psl2 dns2 tb2 s2 options2).2.timersStarted.length) := by
  refine ⟨?_, ?_, ?_, ?_⟩
  · by_cases hd : tb.duration ≤ options.timeout.getD DEFAULT_TIMEOUT
    · cases hr : tb.result <;> simp [serverFetch, hv, hd, hr]
    · simp [serverFetch, hv, hd]
  · intro h
    simp [h, DEFAULT_TIMEOUT]
  · intro h
    have hd : ¬ (tb.duration ≤ options.timeout.getD DEFAULT_TIMEOUT) :=
      not_le.mpr h
    simp [serverFetch, hv, hd]
  · intro parse2 psl2 dns2 tb2 s2 options2
    cases hv2 : validateUrl parse2 psl2 dns2 s2 with
    | error e => simp [serverFetch, hv2, FetchTrace.empty]
    | ok u2 =>
      by_cases hd : tb2.duration ≤ options2.timeout.getD DEFAULT_TIMEOUT
      · cases hr : tb2.result <;> simp [serverFetch, hv2, hd, hr]
      · simp [serverFetch, hv2, hd]

/-- Witness for claim C7 at a concrete input: timeout 100 ms, transport
settling after 200 ms; one timer of 100 ms is armed, the call fails with
the timeout error, and the timer is cleared. -/
theorem serverFetch_timeout_witness :
    (serverFetch okParse okPsl okDns ⟨200, Except.ok 7⟩
        "https://site.example.com/" ⟨some 100, none, []⟩).2.timersStarted = [100]
  ∧ (serverFetch okParse okPsl okDns ⟨200, Except.ok 7⟩
        "https://site.example.com/" ⟨some 100, none, []⟩).1
      = Except.error SFError.timeoutAborted
  ∧ (serverFetch okParse okPsl okDns ⟨200, Except.ok 7⟩
        "https://site.example.com/" ⟨some 100, none, []⟩).2.timersCleared
      = (serverFetch okParse okPsl okDns ⟨200, Except.ok 7⟩
        "https://site.example.com/" ⟨some 100, none, []⟩).2.timersStarted.length :=
  ⟨(serverFetch_timeout_behavior okParse okPsl okDns ⟨200, Except.ok 7⟩
      "https://site.example.com/" ⟨some 100, none, []⟩ okURL rfl).1,
   (serverFetch_timeout_behavior okParse okPsl okDns ⟨200, Except.ok 7⟩
      "https://site.example.com/" ⟨some 100, none, []⟩ okURL rfl).2.2.1
     (by decide),
   (serverFetch_timeout_behavior okParse okPsl okDns ⟨200, Except.ok 7⟩
      "https://site.example.com/" ⟨some 100, none, []⟩ okURL rfl).2.2.2
     okParse okPsl okDns ⟨200, Except.ok 7⟩
     "https://site.example.com/" ⟨some 100, none, []⟩⟩

/-! Claim C8. -/

/-- Claim C8: on success validateUrl returns the parsed URL unchanged (it
is exactly what the parser produced, not rewritten to the resolved
address), and serverFetch invokes the transport exactly once with that
URL and with the caller options forwarded unmodified except the abort
signal, which is replaced by the signal of the core controller. -/
theorem serverFetch_forwards_url_and_options
    (parse : String → Option URLRec) (psl : String → Bool)
    (dns : String → Option LookupResult) (tb : TransportBehavior)
    (s : String) (options : RequestOpts) (u : URLRec)
    (hv : validateUrl parse psl dns s = Except.ok u) :
    parse s = some u
  ∧ (serverFetch parse psl dns tb s options).2.calls
      = [⟨u, overrideSignal options⟩]
  ∧ (overrideSignal options).timeout = options.timeout
  ∧ (overrideSignal options).passthrough = options.passthrough
  ∧ (overrideSignal options).signal = some AbortSignal.core := by
  refine ⟨?_, ?_, rfl, rfl, rfl⟩
  · cases hp : parse s with
    | none => simp [validateUrl, hp] at hv
    | some url =>
      simp only [validateUrl, hp] at hv
      split at hv
      · exact Except.noConfusion hv
      · split at hv
        · exact Except.noConfusion hv
        · split at hv
          · exact Except.noConfusion hv
          · split at hv
            · exact Except.noConfusion hv
            · exact Except.noConfusion hv
            · exact congrArg some (Except.ok.inj hv)
  · by_cases hd : tb.duration ≤ options.timeout.getD DEFAULT_TIMEOUT
    · cases hr : tb.result <;> simp [serverFetch, hv, hd, hr]
    · simp [serverFetch, hv, hd]

/-- Witness for claim C8 at a concrete input: caller options with a
timeout, a caller signal and one pass-through header; the transport is
called once with the unmodified parsed URL and the caller options, only
the signal replaced by the core signal. -/
theorem serverFetch_forwards_witness :
    okParse "https://site.example.com/" = some okURL
  ∧ (serverFetch okParse okPsl okDns ⟨50, Except.ok 7⟩
        "https://site.example.com/"
        ⟨some 100, some (AbortSignal.caller 3), [("accept", "text/html")]⟩).2.calls
      = [⟨okURL, overrideSignal
            ⟨some 100, some (AbortSignal.caller 3), [("accept", "text/html")]⟩⟩] :=
  ⟨(serverFetch_forwards_url_and_options okParse okPsl okDns ⟨50, Except.ok 7⟩
      "https://site.example.com/"
      ⟨some 100, some (AbortSignal.caller 3), [("accept", "text/html")]⟩
      okURL rfl).1,
   (serverFetch_forwards_url_and_options okParse okPsl okDns ⟨50, Except.ok 7⟩
      "https://site.example.com/"
      ⟨some 100, some (AbortSignal.caller 3), [("accept", "text/html")]⟩
      okURL rfl).2.1⟩

/-! Claim C10. -/

/-- Claim C10: serverFetch creates its abort controller and timer only
after validation succeeded — on every input on which validation fails no
timer is ever started, so none can leak on the rejection path. -/
theorem serverFetch_no_timer_on_validation_failure
    (parse : String → Option URLRec) (psl : String → Bool)
    (dns : String → Option LookupResult) (tb : TransportBehavior)
    (s : String) (options : RequestOpts) (e : FetchError)
    (hv : validateUrl parse psl dns s = Except.error e) :
    (serverFetch parse psl dns tb s options).2.timersStarted = [] := by
  simp [serverFetch, hv, FetchTrace.empty]

/-- Witness for claim C10 at a concrete input: a URL with a denied scheme;
no timer is started. -/
theorem serverFetch_no_timer_witness :
    (serverFetch (fun _ => some ⟨"ftp:", "files.example.com", none, "/"⟩)
        okPsl (fun _ => none) ⟨5, Except.ok 0⟩
        "ftp://files.example.com/" ⟨none, none, []⟩).2.timersStarted = [] :=
  serverFetch_no_timer_on_validation_failure
    (fun _ => some ⟨"ftp:", "files.example.com", none, "/"⟩)
    okPsl (fun _ => none) ⟨5, Except.ok 0⟩
    "ftp://files.example.com/" ⟨none, none, []⟩
    (FetchError.invalidScheme "ftp:") rfl
